import Mathlib

/-!
Verification of the PSRAM_IP driver surface (src/drivers/psram_ip_v1_0/src/psram_ip.h).

The header defines two register-access macros,
`PSRAM_IP_mWriteMemory(Address, Data) = Xil_Out32(Address, (u32)(Data))` and
`PSRAM_IP_mReadMemory(Address) = Xil_In32(Address)`, and declares the prototype
`XStatus PSRAM_IP_Mem_SelfTest(void * baseaddr_p)` returning XST_SUCCESS or
XST_FAILURE.  Memory is modelled as a total map from addresses to stored words;
32-bit truncation is explicit via `% 2 ^ 32`.
-/

namespace PsramIP

/-- Modulus of the 32-bit unsigned type `u32`. -/
def U32_MOD : Nat := 2 ^ 32

/-- Memory state: the word stored at each address of the device window. -/
def Mem : Type := Nat → Nat

/-- Modelled from the spec: `Xil_Out32` is the platform's uncached 32-bit
memory-mapped store primitive (an external collaborator per spec section 6,
not part of this repository).  It stores its `u32` value at the given address
and leaves every other address alone. -/
def Xil_Out32 (m : Mem) (Addr : Nat) (Value : Nat) : Mem :=
  fun a => if a = Addr then Value % U32_MOD else m a

/-- Modelled from the spec: `Xil_In32` is the platform's uncached 32-bit
memory-mapped load primitive (an external collaborator per spec section 6).
It returns the `u32` word currently stored at the given address. -/
def Xil_In32 (m : Mem) (Addr : Nat) : Nat :=
  m Addr % U32_MOD

/-- Embedding of the macro
`PSRAM_IP_mWriteMemory(Address, Data) = Xil_Out32(Address, (u32)(Data))`:
the `(u32)` cast on `Data` is the explicit `% U32_MOD`. -/
def PSRAM_IP_mWriteMemory (m : Mem) (Address : Nat) (Data : Nat) : Mem :=
  Xil_Out32 m Address (Data % U32_MOD)

/-- Embedding of the macro `PSRAM_IP_mReadMemory(Address) = Xil_In32(Address)`. -/
def PSRAM_IP_mReadMemory (m : Mem) (Address : Nat) : Nat :=
  Xil_In32 m Address

/-- State-passing form of `PSRAM_IP_mReadMemory`, making explicit that a read
returns a value and the (unchanged) memory state. -/
def PSRAM_IP_mReadMemoryS (m : Mem) (Address : Nat) : Nat × Mem :=
  (PSRAM_IP_mReadMemory m Address, m)

/-- The two-valued `XStatus` outcome of the self-test as documented in the
header: XST_SUCCESS or XST_FAILURE. -/
inductive XStatus : Type
  | XST_SUCCESS : XStatus
  | XST_FAILURE : XStatus
deriving DecidableEq, Repr

/-- A memory backing (the real device, or a mock in the spec's test harness):
a write operation and a read operation over a state type. -/
structure Backing (σ : Type) where
  write : σ → Nat → Nat → σ
  read : σ → Nat → Nat

/-- One Register Access Layer call issued by the self-test, recorded for the
spec's call-count/fail-fast assertions. -/
inductive Access : Type
  | write (addr : Nat) (data : Nat) : Access
  | read (addr : Nat) : Access
deriving DecidableEq, Repr

/-- The address an access touches. -/
def Access.addr : Access → Nat
  | .write a _ => a
  | .read a => a

/-- Modelled from the spec: the body of `PSRAM_IP_Mem_SelfTest` is not in
src/ (only its prototype is), so the tested offset set follows spec section
4.2 step 1: a bounded, statically sized, ascending set of word offsets —
first word, two interior words, and the last word of the tested span. -/
def testedOffsets : List Nat := [0, 4, 8, 12]

/-- Modelled from the spec: the deterministic expected value is derived from
the offset itself (spec section 4.2 step 2a gives "the offset value" as the
canonical choice), truncated to `u32`. -/
def expectedPattern (off : Nat) : Nat := off % U32_MOD

/-- Modelled from the spec: the verification loop of `PSRAM_IP_Mem_SelfTest`
(spec section 4.2 step 2): for each offset in ascending order, write the
expected pattern, read it back, and fail immediately on the first mismatch.
The result carries the final backing state and the trace of Register Access
Layer calls issued. -/
def selfTestLoop {σ : Type} (B : Backing σ) (base : Nat) :
    List Nat → σ → XStatus × σ × List Access
  | [], s => (XStatus.XST_SUCCESS, s, [])
  | off :: rest, s =>
    let expected := expectedPattern off
    let s1 := B.write s (base + off) expected
    let observed := B.read s1 (base + off)
    if observed = expected then
      let r := selfTestLoop B base rest s1
      (r.1, r.2.1, Access.write (base + off) expected :: Access.read (base + off) :: r.2.2)
    else
      (XStatus.XST_FAILURE, s1, [Access.write (base + off) expected, Access.read (base + off)])

/-- Modelled from the spec: `PSRAM_IP_Mem_SelfTest(baseaddr_p)` walks the
statically sized offset set from the given base address over the supplied
memory backing. -/
def PSRAM_IP_Mem_SelfTest {σ : Type} (B : Backing σ) (base : Nat) (s : σ) :
    XStatus × σ × List Access :=
  selfTestLoop B base testedOffsets s

/-- The perfectly round-tripping backing: the Register Access Layer acting on
the memory model itself. -/
def memBacking : Backing Mem :=
  ⟨PSRAM_IP_mWriteMemory, PSRAM_IP_mReadMemory⟩

/-- Spec-worded round-trip predicate (for the refinement statement of the
success condition): every tested offset, in order, reads back exactly the
pattern just written to it, with the state threaded through all writes. -/
def allRoundTrip {σ : Type} (B : Backing σ) (base : Nat) : List Nat → σ → Bool
  | [], _ => true
  | off :: rest, s =>
    let s1 := B.write s (base + off) (expectedPattern off)
    decide (B.read s1 (base + off) = expectedPattern off) && allRoundTrip B base rest s1

/-- Mock backing whose reads always return 1, so the first tested offset
(expected pattern 0) already reads back a wrong value. -/
def stuckBacking : Backing Unit :=
  ⟨fun s _ _ => s, fun _ _ => 1⟩

/-- Mock backing simulating an address-line fault that aliases tested offsets
0 and 4 at base 0: a read of address 4 returns the word last written to
address 0; all other operations behave like the Register Access Layer. -/
def aliasBacking : Backing Mem :=
  ⟨PSRAM_IP_mWriteMemory, fun m a => if a = 4 then Xil_In32 m 0 else Xil_In32 m a⟩

/- ------------------------ helper lemmas ------------------------ -/

theorem expectedPattern_lt (off : Nat) : expectedPattern off < U32_MOD := by
  have : 0 < U32_MOD := by norm_num [U32_MOD]
  exact Nat.mod_lt _ this

theorem readMemory_writeMemory_same (m : Mem) (a d : Nat) :
    PSRAM_IP_mReadMemory (PSRAM_IP_mWriteMemory m a d) a = d % U32_MOD := by
  simp [PSRAM_IP_mReadMemory, PSRAM_IP_mWriteMemory, Xil_In32, Xil_Out32,
    Nat.mod_mod_of_dvd _ dvd_rfl]

theorem selfTestLoop_success_iff {σ : Type} (B : Backing σ) (base : Nat)
    (offs : List Nat) (s : σ) :
    ((selfTestLoop B base offs s).1 = XStatus.XST_SUCCESS ↔
      allRoundTrip B base offs s = true) := by
  induction offs generalizing s with
  | nil => simp [selfTestLoop, allRoundTrip]
  | cons off rest ih =>
    by_cases h : B.read (B.write s (base + off) (expectedPattern off)) (base + off) =
        expectedPattern off
    · simp [selfTestLoop, allRoundTrip, h, ih]
    · simp [selfTestLoop, allRoundTrip, h]

theorem selfTestLoop_trace_length_le {σ : Type} (B : Backing σ) (base : Nat)
    (offs : List Nat) (s : σ) :
    (selfTestLoop B base offs s).2.2.length ≤ 2 * offs.length := by
  induction offs generalizing s with
  | nil => simp [selfTestLoop]
  | cons off rest ih =>
    by_cases h : B.read (B.write s (base + off) (expectedPattern off)) (base + off) =
        expectedPattern off
    · simp only [selfTestLoop, h, if_pos]
      have := ih (B.write s (base + off) (expectedPattern off))
      simp only [List.length_cons, List.length]
      omega
    · simp [selfTestLoop, h]

theorem selfTest_mem_success (base : Nat) (m : Mem) :
    (PSRAM_IP_Mem_SelfTest memBacking base m).1 = XStatus.XST_SUCCESS := by
  simp [PSRAM_IP_Mem_SelfTest, selfTestLoop, testedOffsets, memBacking,
    readMemory_writeMemory_same, expectedPattern, U32_MOD]

/- ------------------------ claim theorems ------------------------ -/

/-- C4: for every offset in the tested set and every 32-bit pattern p, reading
an address immediately after writing p there through the Register Access Layer
macros returns exactly p. -/
theorem writeMemory_readMemory_roundtrip (m : Mem) (o p : Nat)
    (ho : o ∈ testedOffsets) (hp : p < U32_MOD) :
    PSRAM_IP_mReadMemory (PSRAM_IP_mWriteMemory m o p) o = p := by
  rw [readMemory_writeMemory_same]
  exact Nat.mod_eq_of_lt hp

theorem writeMemory_readMemory_roundtrip_witness :
    (0 : Nat) ∈ testedOffsets ∧ (5 : Nat) < U32_MOD ∧
      PSRAM_IP_mReadMemory (PSRAM_IP_mWriteMemory (fun _ => 0) 0 5) 0 = 5 :=
  ⟨by decide, by decide,
    writeMemory_readMemory_roundtrip (fun _ => 0) 0 5 (by decide) (by decide)⟩

/-- C7: a write mutates only the word at its own address (every other address
is unchanged), and a read leaves the entire memory state unchanged. -/
theorem writeMemory_frame_readMemory_pure (m : Mem) (a d a' : Nat)
    (h : a' ≠ a) :
    PSRAM_IP_mWriteMemory m a d a' = m a' ∧
      (PSRAM_IP_mReadMemoryS m a).2 = m := by
  refine ⟨?_, rfl⟩
  simp [PSRAM_IP_mWriteMemory, Xil_Out32, h]

theorem writeMemory_frame_readMemory_pure_witness :
    (1 : Nat) ≠ 0 ∧
      (PSRAM_IP_mWriteMemory (fun _ => 7) 0 5 1 = (fun _ => 7 : Mem) 1 ∧
        (PSRAM_IP_mReadMemoryS (fun _ => 7) 0).2 = (fun _ => 7 : Mem)) :=
  ⟨by decide, writeMemory_frame_readMemory_pure (fun _ => 7) 0 5 1 (by decide)⟩

/-- C9: `PSRAM_IP_mWriteMemory` casts its Data argument to u32 before the
store: the stored word is Data mod 2^32, a subsequent read of that address
yields Data mod 2^32, and for a Data value of 2^32 or more the read-back value
is never the untruncated Data. -/
theorem writeMemory_truncates (m : Mem) (a d : Nat) :
    PSRAM_IP_mWriteMemory m a d a = d % U32_MOD ∧
      PSRAM_IP_mReadMemory (PSRAM_IP_mWriteMemory m a d) a = d % U32_MOD ∧
      (U32_MOD ≤ d → PSRAM_IP_mReadMemory (PSRAM_IP_mWriteMemory m a d) a ≠ d) := by
  refine ⟨?_, readMemory_writeMemory_same m a d, ?_⟩
  · simp [PSRAM_IP_mWriteMemory, Xil_Out32, Nat.mod_mod_of_dvd _ dvd_rfl]
  · intro hd
    rw [readMemory_writeMemory_same]
    have hlt : d % U32_MOD < U32_MOD := Nat.mod_lt _ (by norm_num [U32_MOD])
    omega

theorem writeMemory_truncates_witness :
    U32_MOD ≤ 4294967296 ∧
      PSRAM_IP_mReadMemory (PSRAM_IP_mWriteMemory (fun _ => 0) 3 4294967296) 3 ≠
        4294967296 :=
  ⟨by decide, (writeMemory_truncates (fun _ => 0) 3 4294967296).2.2 (by decide)⟩

/-- C10: `PSRAM_IP_mReadMemory` is deterministic: two invocations on the same
state return equal values, and the returned value depends only on the word
stored at the read address. -/
theorem readMemory_deterministic (m1 m2 : Mem) (a : Nat)
    (h : m1 a = m2 a) :
    PSRAM_IP_mReadMemory m1 a = PSRAM_IP_mReadMemory m1 a ∧
      PSRAM_IP_mReadMemory m1 a = PSRAM_IP_mReadMemory m2 a := by
  refine ⟨rfl, ?_⟩
  simp [PSRAM_IP_mReadMemory, Xil_In32, h]

theorem readMemory_deterministic_witness :
    (fun _ => 9 : Mem) 2 = (fun a => a + 7 : Mem) 2 ∧
      (PSRAM_IP_mReadMemory (fun _ => 9) 2 = PSRAM_IP_mReadMemory (fun _ => 9) 2 ∧
        PSRAM_IP_mReadMemory (fun _ => 9) 2 = PSRAM_IP_mReadMemory (fun a => a + 7) 2) :=
  ⟨by decide, readMemory_deterministic (fun _ => 9) (fun a => a + 7) 2 (by decide)⟩

/-- C1: over any memory backing, the self-test returns XST_SUCCESS exactly
when every tested address round-trips its tested pattern, returns XST_FAILURE
exactly when at least one tested address reads back a value different from
what was written, and XST_SUCCESS / XST_FAILURE are the only possible
results. -/
theorem selfTest_status_characterization {σ : Type} (B : Backing σ)
    (base : Nat) (s : σ) :
    ((PSRAM_IP_Mem_SelfTest B base s).1 = XStatus.XST_SUCCESS ↔
      allRoundTrip B base testedOffsets s = true) ∧
    ((PSRAM_IP_Mem_SelfTest B base s).1 = XStatus.XST_FAILURE ↔
      ¬ allRoundTrip B base testedOffsets s = true) ∧
    ((PSRAM_IP_Mem_SelfTest B base s).1 = XStatus.XST_SUCCESS ∨
      (PSRAM_IP_Mem_SelfTest B base s).1 = XStatus.XST_FAILURE) := by
  have h := selfTestLoop_success_iff B base testedOffsets s
  refine ⟨h, ?_, ?_⟩
  · cases hr : (PSRAM_IP_Mem_SelfTest B base s).1 <;>
      simp [PSRAM_IP_Mem_SelfTest] at h hr ⊢ <;> simp [hr] at h <;> simp [h]
  · cases hr : (PSRAM_IP_Mem_SelfTest B base s).1
    · exact Or.inl rfl
    · exact Or.inr rfl

/-- C2: if the first tested offset already reads back a wrong value, the
self-test returns XST_FAILURE and the trace of Register Access Layer calls it
issued touches no address other than the first tested offset (base + 0), for
every backing exhibiting such a first-offset fault. -/
theorem selfTest_failFast {σ : Type} (B : Backing σ) (base : Nat) (s : σ)
    (h : B.read (B.write s (base + 0) (expectedPattern 0)) (base + 0) ≠
      expectedPattern 0) :
    (PSRAM_IP_Mem_SelfTest B base s).1 = XStatus.XST_FAILURE ∧
      ∀ acc ∈ (PSRAM_IP_Mem_SelfTest B base s).2.2, acc.addr = base + 0 := by
  have hrun : PSRAM_IP_Mem_SelfTest B base s =
      (XStatus.XST_FAILURE, B.write s (base + 0) (expectedPattern 0),
        [Access.write (base + 0) (expectedPattern 0), Access.read (base + 0)]) := by
    simp only [PSRAM_IP_Mem_SelfTest, testedOffsets, selfTestLoop, if_neg h]
  rw [hrun]
  refine ⟨rfl, ?_⟩
  intro acc hacc
  simp only [List.mem_cons, List.mem_singleton, List.not_mem_nil, or_false] at hacc
  rcases hacc with rfl | rfl <;> rfl

theorem selfTest_failFast_witness :
    stuckBacking.read (stuckBacking.write () (0 + 0) (expectedPattern 0)) (0 + 0) ≠
        expectedPattern 0 ∧
      ((PSRAM_IP_Mem_SelfTest stuckBacking 0 ()).1 = XStatus.XST_FAILURE ∧
        ∀ acc ∈ (PSRAM_IP_Mem_SelfTest stuckBacking 0 ()).2.2, acc.addr = 0 + 0) :=
  ⟨by decide, selfTest_failFast stuckBacking 0 () (by decide)⟩

/-- C3: for every base address and every initial memory contents, running the
self-test over a backing in which every read returns exactly the value last
written (the Register Access Layer acting on the memory model) returns
XST_SUCCESS. -/
theorem selfTest_allPass (base : Nat) (m : Mem) :
    (PSRAM_IP_Mem_SelfTest memBacking base m).1 = XStatus.XST_SUCCESS :=
  selfTest_mem_success base m

/-- C5: the expected-value function is injective on the tested offset set —
distinct tested offsets always get distinct expected patterns — and the
self-test detects an address-line fault aliasing offsets 0 and 4 (a backing
returning offset 0's last-written word for reads of offset 4) as
XST_FAILURE. -/
theorem expectedPattern_injective_on_testedOffsets :
    (∀ o1 ∈ testedOffsets, ∀ o2 ∈ testedOffsets, o1 ≠ o2 →
      expectedPattern o1 ≠ expectedPattern o2) ∧
    (PSRAM_IP_Mem_SelfTest aliasBacking 0 (fun _ => 0)).1 = XStatus.XST_FAILURE := by
  constructor
  · decide
  · decide

theorem expectedPattern_injective_on_testedOffsets_witness :
    (0 : Nat) ∈ testedOffsets ∧ (4 : Nat) ∈ testedOffsets ∧ (0 : Nat) ≠ 4 ∧
      expectedPattern 0 ≠ expectedPattern 4 :=
  ⟨by decide, by decide, by decide,
    expectedPattern_injective_on_testedOffsets.1 0 (by decide) 4 (by decide) (by decide)⟩

/-- C6: over any backing whose read and write are total functions, the
self-test returns one of the two results XST_SUCCESS / XST_FAILURE, and the
number of Register Access Layer calls it issues is bounded by twice the size
of the statically sized tested offset set (it always terminates; the
definition is structural recursion over that finite set). -/
theorem selfTest_terminates_bounded {σ : Type} (B : Backing σ) (base : Nat)
    (s : σ) :
    ((PSRAM_IP_Mem_SelfTest B base s).1 = XStatus.XST_SUCCESS ∨
      (PSRAM_IP_Mem_SelfTest B base s).1 = XStatus.XST_FAILURE) ∧
    (PSRAM_IP_Mem_SelfTest B base s).2.2.length ≤ 2 * testedOffsets.length := by
  refine ⟨?_, selfTestLoop_trace_length_le B base testedOffsets s⟩
  cases (PSRAM_IP_Mem_SelfTest B base s).1
  · exact Or.inl rfl
  · exact Or.inr rfl

theorem selfTest_mem_finalState (base : Nat) (m : Mem) (off : Nat)
    (h : off ∈ testedOffsets) :
    (PSRAM_IP_Mem_SelfTest memBacking base m).2.1 (base + off) =
      expectedPattern off := by
  simp only [testedOffsets, List.mem_cons, List.not_mem_nil, or_false] at h
  rcases h with rfl | rfl | rfl | rfl <;>
    simp [PSRAM_IP_Mem_SelfTest, selfTestLoop, testedOffsets, memBacking,
      PSRAM_IP_mWriteMemory, PSRAM_IP_mReadMemory, Xil_Out32, Xil_In32,
      expectedPattern, U32_MOD]

/-- C8: running the self-test twice in succession over the perfectly
round-tripping memory backing yields XST_SUCCESS both times, and the final
memory state stores, at each tested offset, exactly the last pattern written
to that offset. -/
theorem selfTest_idempotent (base : Nat) (m : Mem) :
    (PSRAM_IP_Mem_SelfTest memBacking base m).1 = XStatus.XST_SUCCESS ∧
    (PSRAM_IP_Mem_SelfTest memBacking base
        (PSRAM_IP_Mem_SelfTest memBacking base m).2.1).1 = XStatus.XST_SUCCESS ∧
    ∀ off ∈ testedOffsets,
      (PSRAM_IP_Mem_SelfTest memBacking base
          (PSRAM_IP_Mem_SelfTest memBacking base m).2.1).2.1 (base + off) =
        expectedPattern off :=
  ⟨selfTest_mem_success base m,
   selfTest_mem_success base _,
   fun off h => selfTest_mem_finalState base _ off h⟩

theorem selfTest_idempotent_witness :
    (0 : Nat) ∈ testedOffsets ∧
      (PSRAM_IP_Mem_SelfTest memBacking 0
          (PSRAM_IP_Mem_SelfTest memBacking 0 (fun _ => 0)).2.1).2.1 (0 + 0) =
        expectedPattern 0 :=
  ⟨by decide, (selfTest_idempotent 0 (fun _ => 0)).2.2 0 (by decide)⟩

end PsramIP
